import Mathlib

/-!
Verification of the Court-Data Fetcher mini dashboard (`app.py`).

The Python application is shallowly embedded below.  Strings are modelled by
Lean `String` restricted to the ASCII fragment: Python's `str.strip`, `str.lower`
and the `re` character class `\d` also accept further Unicode code points which
never occur in the data handled by this program, so the ASCII behaviour is the
one modelled.  HTML documents are modelled by the answers BeautifulSoup gives to
the exact queries the parser performs (containers, table rows, table cells,
anchors), and operations that can raise (driver calls, the soup stage) take an
`Except` argument standing for the outcome of the fallible external step.
-/

namespace CourtApp

/-- Whitespace characters removed by Python `str.strip()` (ASCII fragment). -/
def pyIsSpace (c : Char) : Bool :=
  c == ' ' || c == '\t' || c == '\n' || c == '\r' || c == '\x0B' || c == '\x0C'

/-- Python `s.strip()` (ASCII fragment): drop leading and trailing whitespace. -/
def pyStrip (s : String) : String :=
  String.mk (((s.toList.dropWhile pyIsSpace).reverse.dropWhile pyIsSpace).reverse)

/-- Python `s.lower()` (ASCII fragment): lower-case every character. -/
def pyLower (s : String) : String :=
  String.mk (s.toList.map Char.toLower)

/-- Python `s.startswith(p)`. -/
def pyStartsWith (s p : String) : Bool :=
  p.toList.isPrefixOf s.toList

/-- Python `needle in hay` on strings: `needle` occurs as a contiguous substring. -/
def containsSub (hay needle : String) : Bool :=
  (List.range (hay.toList.length + 1)).any (fun i => needle.toList.isPrefixOf (hay.toList.drop i))

/-- One position of the regex `\d{2}/\d{2}/\d{4}`: the list starts with
two digits, a slash, two digits, a slash and four digits. -/
def dateShapeAt : List Char → Bool
  | d1 :: d2 :: s1 :: d3 :: d4 :: s2 :: y1 :: y2 :: y3 :: y4 :: _ =>
      d1.isDigit && d2.isDigit && s1 == '/' && d3.isDigit && d4.isDigit && s2 == '/' &&
        y1.isDigit && y2.isDigit && y3.isDigit && y4.isDigit
  | _ => false

/-- Python `re.search` of the pattern `\d{2}/\d{2}/\d{4}` in `s` succeeding:
some suffix of `s` starts with a `dd/mm/yyyy`-shaped token (line 305). -/
def hasDateToken (s : String) : Bool :=
  s.toList.tails.any dateShapeAt

/-- Python `re.match` of the pattern `^\d{4}$` on `s` being truthy (line 458):
four digits, where `$` in Python also matches just before one final newline.
`\d` is modelled on its ASCII fragment. -/
def re_match_4digits (s : String) : Bool :=
  (s.toList.length == 4 && s.toList.all Char.isDigit) ||
  (s.toList.length == 5 && (s.toList.take 4).all Char.isDigit && s.toList.getLast? == some '\n')

/-- The `parties` sub-dictionary of a parsed case record. -/
structure Parties where
  petitioner : String
  respondent : String
deriving DecidableEq

/-- One entry of the `orders` list (lines 323-328 and 375-386). -/
structure Order where
  date : String
  order_type : String
  description : String
  pdf_link : Option String
deriving DecidableEq

/-- One entry of the `case_history` list (lines 388-397). -/
structure Event where
  date : String
  event : String
deriving DecidableEq

/-- The parsed case record (`case_data` dictionary, lines 276-284). -/
structure CaseData where
  case_number : String
  parties : Parties
  filing_date : String
  next_hearing_date : String
  case_status : String
  orders : List Order
  case_history : List Event
deriving DecidableEq

/-- The `explanation` block attached by `search_case` (lines 407-422). -/
structure Explanation where
  why_mock : String
  real_url : String
  manual_steps : List String
  automation_options : List String
deriving DecidableEq

/-- A result dictionary returned by the scraper methods.  Keys that are absent
in some of the dictionaries built by the source are modelled as `Option`
fields (`none` = key absent); `blocked` is read with default `False` at
line 476, so it is a plain `Bool`. -/
structure SearchResult where
  success : Bool
  data : Option CaseData
  error : Option String
  raw_html : Option String
  source : Option String
  note : Option String
  explanation : Option Explanation
  blocked : Bool
deriving DecidableEq

/-- `self.base_url` (line 89). -/
def base_url : String := "https://delhihighcourt.nic.in"

/-- `self.search_url` (line 91). -/
def search_url : String := base_url ++ "/app/get-case-type-status"

/-- `DelhiHighCourtRealScraper._generate_mock_response` (lines 363-398). -/
def generate_mock_response (case_type case_number filing_year : String) : CaseData :=
  { case_number := case_type ++ " " ++ case_number ++ "/" ++ filing_year
  , parties :=
      { petitioner := "Sample Petitioner " ++ case_number
      , respondent := "State of Delhi & Others" }
  , filing_date := "15/03/" ++ filing_year
  , next_hearing_date := "25/12/2024"
  , case_status := "Listed for hearing"
  , orders :=
      [ { date := "20/11/2024"
        , order_type := "Order"
        , description := "Case " ++ case_type ++ " " ++ case_number ++ "/" ++ filing_year ++
            " adjourned to next date for final hearing"
        , pdf_link := some ("/orders/" ++ case_type ++ "_" ++ case_number ++ "_" ++
            filing_year ++ "_order.pdf") }
      , { date := "15/10/2024"
        , order_type := "Notice"
        , description := "Notice issued to all respondents to file reply"
        , pdf_link := some ("/orders/" ++ case_type ++ "_" ++ case_number ++ "_" ++
            filing_year ++ "_notice.pdf") } ]
  , case_history :=
      [ { date := "15/03/" ++ filing_year, event := "Case filed and registered" }
      , { date := "20/03/2024", event := "First hearing scheduled" } ] }

/-- `DelhiHighCourtRealScraper._fallback_to_mock` (lines 352-361). -/
def fallback_to_mock (case_type case_number filing_year : String) : SearchResult :=
  { success := true
  , data := some (generate_mock_response case_type case_number filing_year)
  , error := none
  , raw_html := some "<html><body>Mock response - real scraping failed</body></html>"
  , source := some "mock_data"
  , note := some "Real scraping failed, showing sample data structure"
  , explanation := none
  , blocked := false }

/-- The explanation dictionary attached in `search_case` (lines 407-422). -/
def search_explanation : Explanation :=
  { why_mock := "The Delhi High Court website uses CAPTCHA verification"
  , real_url := search_url
  , manual_steps :=
      [ "1. Visit https://delhihighcourt.nic.in/case-status"
      , "2. Select case type and enter case number/year"
      , "3. Solve CAPTCHA verification"
      , "4. Submit form to get real data" ]
  , automation_options :=
      [ "Use Selenium with manual CAPTCHA solving"
      , "Integrate with CAPTCHA solving services (2captcha, Anti-Captcha)"
      , "Use official APIs if available"
      , "Implement manual intervention points" ] }

/-- `DelhiHighCourtRealScraper.search_case` (lines 400-423): the call to
`search_case_real` is commented out in the source, so the method always takes
the mock path and attaches the explanation block. -/
def search_case (case_type case_number filing_year : String) : SearchResult :=
  { fallback_to_mock case_type case_number filing_year with
      explanation := some search_explanation }

/-- Claim C1: for every valid input (non-empty `case_type` and `case_number`,
`filing_year` matching `^\d{4}$`), `search_case` returns success `true`, source
`"mock_data"` and an attached explanation block, and its result is exactly the
synthetic fallback result annotated with the explanation — the live-scraping
path is never taken (its invocation is commented out at line 403). -/
theorem search_case_returns_mock (case_type case_number filing_year : String)
    (h1 : case_type ≠ "") (h2 : case_number ≠ "")
    (h3 : re_match_4digits filing_year = true) :
    (search_case case_type case_number filing_year).success = true
    ∧ (search_case case_type case_number filing_year).source = some "mock_data"
    ∧ (search_case case_type case_number filing_year).explanation = some search_explanation
    ∧ (search_case case_type case_number filing_year).source ≠ some "real_scraping"
    ∧ search_case case_type case_number filing_year =
        { fallback_to_mock case_type case_number filing_year with
            explanation := some search_explanation } := by
  refine ⟨rfl, rfl, rfl, ?_, rfl⟩
  intro h
  have hs : some "mock_data" = some "real_scraping" := h
  simp at hs

/-- Witness for C1 at the concrete valid input `("WP(C)", "1234", "2024")`. -/
theorem search_case_returns_mock_witness :
    (search_case "WP(C)" "1234" "2024").success = true
    ∧ (search_case "WP(C)" "1234" "2024").source = some "mock_data"
    ∧ (search_case "WP(C)" "1234" "2024").explanation = some search_explanation
    ∧ (search_case "WP(C)" "1234" "2024").source ≠ some "real_scraping"
    ∧ search_case "WP(C)" "1234" "2024" =
        { fallback_to_mock "WP(C)" "1234" "2024" with
            explanation := some search_explanation } :=
  search_case_returns_mock "WP(C)" "1234" "2024" (by decide) (by decide) (by decide)

/-- Claim C3: the synthetic fallback record has `case_number` exactly
`"{case_type} {case_number}/{filing_year}"` and `filing_date` exactly
`"15/03/{filing_year}"`, it is the record carried in the fallback result, and
at input `("WP(C)", "1234", "2024")` these fields are `"WP(C) 1234/2024"` and
`"15/03/2024"`. -/
theorem mock_record_fields :
    (∀ case_type case_number filing_year : String,
        (generate_mock_response case_type case_number filing_year).case_number =
            case_type ++ " " ++ case_number ++ "/" ++ filing_year
        ∧ (generate_mock_response case_type case_number filing_year).filing_date =
            "15/03/" ++ filing_year
        ∧ (fallback_to_mock case_type case_number filing_year).data =
            some (generate_mock_response case_type case_number filing_year))
    ∧ (generate_mock_response "WP(C)" "1234" "2024").case_number = "WP(C) 1234/2024"
    ∧ (generate_mock_response "WP(C)" "1234" "2024").filing_date = "15/03/2024" := by
  refine ⟨fun ct cn fy => ⟨rfl, rfl, rfl⟩, by decide, by decide⟩

/-! ### HTML document model and the result parser (`_parse_real_response`) -/

/-- A table cell (`<td>`): its text content and the `href` values of its anchor
descendants that carry an `href` attribute, in document order.  Cells are
modelled as carrying a single text node, so BeautifulSoup's
`get_text(strip=True)` is `pyStrip` of `get_text()` and the `string=` filter
of `find` tests the same text. -/
structure Cell where
  text : String
  anchors : List String
deriving DecidableEq

/-- The answers BeautifulSoup gives to the queries `_parse_real_response`
performs on the page, in document order:
* `partiesSection`: the container found by
  `soup.find('div', class_='parties') or soup.find('table', id='case-details')`
  (line 290), given as its rows of sibling `<td>` cells;
* `tdRows`: every table row of the document with its `<td>` cells, so
  `soup.find_all('td')` is `tdRows.flatten` and a cell's `find_next_sibling()`
  is the next cell of its row;
* `ordersTable`: the rows (`<tr>`, header included) of the table found by
  `soup.find('table', {'class': 'orders'}) or soup.find('table', id='orders')`
  (line 317), each with its `<td>` cells. -/
structure HtmlDoc where
  partiesSection : Option (List (List Cell))
  tdRows : List (List Cell)
  ordersTable : Option (List (List Cell))
deriving DecidableEq

/-- `section.find('td', string=re.compile(label, re.I))` followed by
`find_next_sibling()` on the first row of cells: the first cell whose text
matches, paired with its next sibling cell if any. -/
def findInCells (pred : Cell → Bool) : List Cell → Option (Cell × Option Cell)
  | [] => none
  | c :: rest => if pred c then some (c, rest.head?) else findInCells pred rest

/-- The same search over all rows in document order. -/
def findTdWithNext (pred : Cell → Bool) : List (List Cell) → Option (Cell × Option Cell)
  | [] => none
  | r :: rs =>
    match findInCells pred r with
    | some x => some x
    | none => findTdWithNext pred rs

/-- The filter `string=re.compile('petitioner', re.I)` (line 292). -/
def petitionerPred (c : Cell) : Bool := containsSub (pyLower c.text) "petitioner"

/-- The filter `string=re.compile('respondent', re.I)` (line 296). -/
def respondentPred (c : Cell) : Bool := containsSub (pyLower c.text) "respondent"

/-- The filter `string=re.compile('status', re.I)` (line 312). -/
def statusPred (c : Cell) : Bool := containsSub (pyLower c.text) "status"

/-- The initial `case_data` dictionary of `_parse_real_response`
(lines 276-284): every extracted field starts at `"N/A"` / empty and
`case_number` echoes the query. -/
def case_data_init (case_type case_number filing_year : String) : CaseData :=
  { case_number := case_type ++ " " ++ case_number ++ "/" ++ filing_year
  , parties := { petitioner := "N/A", respondent := "N/A" }
  , filing_date := "N/A"
  , next_hearing_date := "N/A"
  , case_status := "N/A"
  , orders := []
  , case_history := [] }

/-- Parties extraction (lines 290-298): inside the parties container, the first
cell matching `petitioner` with a next sibling sets the petitioner, then the
first cell matching `respondent` with a next sibling sets the respondent. -/
def partiesStep (doc : HtmlDoc) (cd : CaseData) : CaseData :=
  match doc.partiesSection with
  | none => cd
  | some rows =>
    let cd1 :=
      match findTdWithNext petitionerPred rows with
      | some (_, some sib) =>
          { cd with parties := { cd.parties with petitioner := pyStrip sib.text } }
      | _ => cd
    match findTdWithNext respondentPred rows with
    | some (_, some sib) =>
        { cd1 with parties := { cd1.parties with respondent := pyStrip sib.text } }
    | _ => cd1

/-- One iteration of the date loop (lines 302-309): a cell whose stripped text
contains a `dd/mm/yyyy` token overwrites `filing_date` when its text mentions
filing/filed, else overwrites `next_hearing_date` when it mentions
hearing/next. -/
def dateStep (cd : CaseData) (cell : Cell) : CaseData :=
  if hasDateToken (pyStrip cell.text) then
    if containsSub (pyLower cell.text) "filing" || containsSub (pyLower cell.text) "filed" then
      { cd with filing_date := pyStrip cell.text }
    else if containsSub (pyLower cell.text) "hearing" || containsSub (pyLower cell.text) "next" then
      { cd with next_hearing_date := pyStrip cell.text }
    else cd
  else cd

/-- Status extraction (lines 312-314). -/
def statusStep (doc : HtmlDoc) (cd : CaseData) : CaseData :=
  match findTdWithNext statusPred doc.tdRows with
  | some (_, some sib) => { cd with case_status := pyStrip sib.text }
  | _ => cd

/-- Model of `urllib.parse.urljoin` specialised to this program's use: the base
is an `https` origin with empty path (`base_url`).  An absolute reference is
returned unchanged, a scheme-relative reference gets the base's scheme, an
absolute path is attached to the origin, and a relative path resolves against
the empty base path.  Exotic references (fragments, queries, dot segments,
other schemes without `://`) do not occur in this program and are not
modelled. -/
def urljoin (base url : String) : String :=
  if containsSub url "://" then url
  else if pyStartsWith url "//" then "https:" ++ url
  else if pyStartsWith url "/" then base ++ url
  else base ++ "/" ++ url

/-- `DelhiHighCourtRealScraper._extract_pdf_link` (lines 342-350):
`element.find('a', href=True)` inspects only the first anchor of the cell; its
link is returned, joined to the base URL, when its `href` mentions pdf or
download. -/
def extract_pdf_link (element : Cell) : Option String :=
  match element.anchors.head? with
  | none => none
  | some href =>
    if containsSub (pyLower href) "pdf" || containsSub (pyLower href) "download" then
      some (urljoin base_url href)
    else none

/-- One order row (lines 321-329): a row with at least 3 cells yields an order
built from its first three cells. -/
def mkOrder (c0 c1 c2 : Cell) : Order :=
  { date := pyStrip c0.text
  , order_type := pyStrip c1.text
  , description := pyStrip c2.text
  , pdf_link := extract_pdf_link c2 }

/-- The body of the orders loop (lines 320-329), appending to the accumulated
list exactly when the row has at least 3 cells. -/
def orderRowStep (acc : List Order) (row : List Cell) : List Order :=
  match row with
  | c0 :: c1 :: c2 :: _ => acc ++ [mkOrder c0 c1 c2]
  | _ => acc

/-- The order a row contributes, if any: `some` exactly when it has ≥ 3 cells. -/
def orderRow? (row : List Cell) : Option Order :=
  match row with
  | c0 :: c1 :: c2 :: _ => some (mkOrder c0 c1 c2)
  | _ => none

/-- Orders extraction (lines 317-329): skip the header row of the orders table,
then run the loop. -/
def ordersStep (doc : HtmlDoc) (cd : CaseData) : CaseData :=
  match doc.ordersTable with
  | none => cd
  | some rows => { cd with orders := (rows.drop 1).foldl orderRowStep cd.orders }

/-- The extraction pipeline of `_parse_real_response` (lines 276-329) in source
order: initial record, parties, the date loop over all `<td>` cells, status,
orders. -/
def parse_doc (doc : HtmlDoc) (case_type case_number filing_year : String) : CaseData :=
  ordersStep doc
    (statusStep doc
      ((doc.tdRows.flatten).foldl dateStep
        (partiesStep doc (case_data_init case_type case_number filing_year))))

/-- `DelhiHighCourtRealScraper._parse_real_response` (lines 271-340) with its
`try/except`: `soup` is the outcome of the BeautifulSoup stage on `html`; on
success the parsed record is wrapped in a real-scraping result (lines 331-336),
on any exception the partial result is discarded and `_fallback_to_mock` is
returned (lines 338-340). -/
def parse_real_response (html : String) (soup : Except Unit HtmlDoc)
    (case_type case_number filing_year : String) : SearchResult :=
  match soup with
  | .ok doc =>
      { success := true
      , data := some (parse_doc doc case_type case_number filing_year)
      , error := none
      , raw_html := some html
      , source := some "real_scraping"
      , note := none
      , explanation := none
      , blocked := false }
  | .error _ => fallback_to_mock case_type case_number filing_year

/-! ### Helper lemmas about the parser pipeline -/

/-- `partiesStep` only rewrites the `parties` field. -/
theorem partiesStep_eq (doc : HtmlDoc) (cd : CaseData) :
    ∃ p, partiesStep doc cd = { cd with parties := p } := by
  unfold partiesStep
  split
  · exact ⟨cd.parties, rfl⟩
  · split <;> split <;> exact ⟨_, rfl⟩

/-- `statusStep` only rewrites the `case_status` field. -/
theorem statusStep_eq (doc : HtmlDoc) (cd : CaseData) :
    ∃ s, statusStep doc cd = { cd with case_status := s } := by
  unfold statusStep
  split
  · exact ⟨_, rfl⟩
  · exact ⟨cd.case_status, rfl⟩

/-- `ordersStep` only rewrites the `orders` field. -/
theorem ordersStep_eq (doc : HtmlDoc) (cd : CaseData) :
    ∃ o, ordersStep doc cd = { cd with orders := o } := by
  unfold ordersStep
  split
  · exact ⟨cd.orders, rfl⟩
  · exact ⟨_, rfl⟩

/-- `dateStep` only rewrites the two date fields. -/
theorem dateStep_eq (cd : CaseData) (c : Cell) :
    ∃ f h, dateStep cd c = { cd with filing_date := f, next_hearing_date := h } := by
  unfold dateStep
  split
  · split
    · exact ⟨_, cd.next_hearing_date, rfl⟩
    · split
      · exact ⟨cd.filing_date, _, rfl⟩
      · exact ⟨cd.filing_date, cd.next_hearing_date, rfl⟩
  · exact ⟨cd.filing_date, cd.next_hearing_date, rfl⟩

/-- The date loop only rewrites the two date fields. -/
theorem foldl_dateStep_eq (cells : List Cell) (cd : CaseData) :
    ∃ f h, cells.foldl dateStep cd = { cd with filing_date := f, next_hearing_date := h } := by
  induction cells generalizing cd with
  | nil => exact ⟨cd.filing_date, cd.next_hearing_date, rfl⟩
  | cons c cs ih =>
    obtain ⟨f1, h1, e1⟩ := dateStep_eq cd c
    obtain ⟨f2, h2, e2⟩ := ih { cd with filing_date := f1, next_hearing_date := h1 }
    exact ⟨f2, h2, by rw [List.foldl_cons, e1, e2]⟩

/-- A cell scan over rows whose cells all fail the filter finds nothing. -/
theorem findInCells_none (pred : Cell → Bool) (cells : List Cell)
    (h : ∀ c ∈ cells, pred c = false) : findInCells pred cells = none := by
  induction cells with
  | nil => rfl
  | cons c rest ih =>
    unfold findInCells
    rw [h c (by simp)]
    exact ih (fun c hc => h c (by simp [hc]))

/-- The document-wide cell search finds nothing when every cell fails. -/
theorem findTdWithNext_none (pred : Cell → Bool) (rows : List (List Cell))
    (h : ∀ r ∈ rows, ∀ c ∈ r, pred c = false) : findTdWithNext pred rows = none := by
  induction rows with
  | nil => rfl
  | cons r rs ih =>
    unfold findTdWithNext
    rw [findInCells_none pred r (h r (by simp))]
    exact ih (fun r hr => h r (by simp [hr]))

/-- With no parties container the parties stage is the identity. -/
theorem partiesStep_none (doc : HtmlDoc) (cd : CaseData)
    (h : doc.partiesSection = none) : partiesStep doc cd = cd := by
  unfold partiesStep
  rw [h]

/-- With no orders table the orders stage is the identity. -/
theorem ordersStep_none (doc : HtmlDoc) (cd : CaseData)
    (h : doc.ordersTable = none) : ordersStep doc cd = cd := by
  unfold ordersStep
  rw [h]

/-- When no cell mentions a status, the status stage is the identity. -/
theorem statusStep_id (doc : HtmlDoc) (cd : CaseData)
    (h : findTdWithNext statusPred doc.tdRows = none) : statusStep doc cd = cd := by
  unfold statusStep
  rw [h]

/-- A cell with no date token leaves the record unchanged. -/
theorem dateStep_no_token (cd : CaseData) (c : Cell)
    (h : hasDateToken (pyStrip c.text) = false) : dateStep cd c = cd := by
  unfold dateStep
  rw [h]
  rfl

/-- The date loop over cells with no date tokens is the identity. -/
theorem foldl_dateStep_id (cells : List Cell) (cd : CaseData)
    (h : ∀ c ∈ cells, hasDateToken (pyStrip c.text) = false) :
    cells.foldl dateStep cd = cd := by
  induction cells generalizing cd with
  | nil => rfl
  | cons c cs ih =>
    rw [List.foldl_cons, dateStep_no_token cd c (h c (by simp))]
    exact ih cd (fun c hc => h c (by simp [hc]))

/-- Claim C4: on markup with no recognizable structure (no parties container,
no cell whose text carries a `dd/mm/yyyy` token, no cell mentioning a status,
no orders table) the parser returns the initial record — every field at its
default — and a parse stage that raises makes `_parse_real_response` discard
the partial result and return the synthetic fallback, never an error. -/
theorem parse_no_structure_defaults :
    (∀ (doc : HtmlDoc) (case_type case_number filing_year : String),
        doc.partiesSection = none →
        doc.ordersTable = none →
        (∀ row ∈ doc.tdRows, ∀ c ∈ row,
            hasDateToken (pyStrip c.text) = false
            ∧ containsSub (pyLower c.text) "status" = false) →
        parse_doc doc case_type case_number filing_year =
          case_data_init case_type case_number filing_year)
    ∧ (∀ (html case_type case_number filing_year : String),
        parse_real_response html (Except.error ()) case_type case_number filing_year =
          fallback_to_mock case_type case_number filing_year) := by
  constructor
  · intro doc ct cn fy hps hot hcells
    have hdates : ∀ c ∈ doc.tdRows.flatten, hasDateToken (pyStrip c.text) = false := by
      intro c hc
      rw [List.mem_flatten] at hc
      obtain ⟨r, hr, hcr⟩ := hc
      exact (hcells r hr c hcr).1
    have hstat : ∀ r ∈ doc.tdRows, ∀ c ∈ r, statusPred c = false :=
      fun r hr c hc => (hcells r hr c hc).2
    unfold parse_doc
    rw [partiesStep_none doc _ hps, foldl_dateStep_id _ _ hdates,
      statusStep_id doc _ (findTdWithNext_none statusPred doc.tdRows hstat),
      ordersStep_none doc _ hot]
  · intro html ct cn fy
    rfl

/-- Witness for C4: the empty document parses to the all-default record, and an
exception at the soup stage yields the fallback result. -/
theorem parse_no_structure_defaults_witness :
    parse_doc { partiesSection := none, tdRows := [], ordersTable := none }
        "WP(C)" "1234" "2024" = case_data_init "WP(C)" "1234" "2024"
    ∧ parse_real_response "<html></html>" (Except.error ()) "WP(C)" "1234" "2024" =
        fallback_to_mock "WP(C)" "1234" "2024" :=
  ⟨parse_no_structure_defaults.1 _ "WP(C)" "1234" "2024" rfl rfl (by simp),
   parse_no_structure_defaults.2 "<html></html>" "WP(C)" "1234" "2024"⟩

/-! ### Date scanning (claim C5) -/

/-- A cell that the date loop classifies as a filing-date cell: stripped text
carries a `dd/mm/yyyy` token and the text mentions filing or filed. -/
def isFilingCell (c : Cell) : Bool :=
  hasDateToken (pyStrip c.text) &&
    (containsSub (pyLower c.text) "filing" || containsSub (pyLower c.text) "filed")

/-- A cell that the date loop classifies as a hearing-date cell: stripped text
carries a `dd/mm/yyyy` token, the text does not mention filing/filed, and it
mentions hearing or next. -/
def isHearingCell (c : Cell) : Bool :=
  hasDateToken (pyStrip c.text) &&
    !(containsSub (pyLower c.text) "filing" || containsSub (pyLower c.text) "filed") &&
    (containsSub (pyLower c.text) "hearing" || containsSub (pyLower c.text) "next")

/-- Effect of one date-loop iteration on `filing_date`. -/
theorem dateStep_filing (cd : CaseData) (c : Cell) :
    (dateStep cd c).filing_date =
      if isFilingCell c then pyStrip c.text else cd.filing_date := by
  unfold dateStep isFilingCell
  cases h1 : hasDateToken (pyStrip c.text) <;>
    cases h2 : (containsSub (pyLower c.text) "filing" || containsSub (pyLower c.text) "filed") <;>
      cases h3 : (containsSub (pyLower c.text) "hearing" || containsSub (pyLower c.text) "next") <;>
        simp [h1, h2, h3]

/-- Effect of one date-loop iteration on `next_hearing_date`. -/
theorem dateStep_hearing (cd : CaseData) (c : Cell) :
    (dateStep cd c).next_hearing_date =
      if isHearingCell c then pyStrip c.text else cd.next_hearing_date := by
  unfold dateStep isHearingCell
  cases h1 : hasDateToken (pyStrip c.text) <;>
    cases h2 : (containsSub (pyLower c.text) "filing" || containsSub (pyLower c.text) "filed") <;>
      cases h3 : (containsSub (pyLower c.text) "hearing" || containsSub (pyLower c.text) "next") <;>
        simp [h1, h2, h3]

/-- The date loop assigns `filing_date` from the last qualifying cell: each
later match overwrites the earlier value. -/
theorem foldl_dateStep_filing (cells : List Cell) (cd : CaseData) :
    (cells.foldl dateStep cd).filing_date =
      ((cells.reverse.find? isFilingCell).map (fun c => pyStrip c.text)).getD
        cd.filing_date := by
  induction cells generalizing cd with
  | nil => rfl
  | cons c cs ih =>
    rw [List.foldl_cons, ih, List.reverse_cons, List.find?_append]
    cases h : cs.reverse.find? isFilingCell with
    | some x => simp
    | none =>
      rw [List.find?_singleton]
      cases hc : isFilingCell c <;> simp [dateStep_filing, hc]

/-- The date loop assigns `next_hearing_date` from the last qualifying cell. -/
theorem foldl_dateStep_hearing (cells : List Cell) (cd : CaseData) :
    (cells.foldl dateStep cd).next_hearing_date =
      ((cells.reverse.find? isHearingCell).map (fun c => pyStrip c.text)).getD
        cd.next_hearing_date := by
  induction cells generalizing cd with
  | nil => rfl
  | cons c cs ih =>
    rw [List.foldl_cons, ih, List.reverse_cons, List.find?_append]
    cases h : cs.reverse.find? isHearingCell with
    | some x => simp
    | none =>
      rw [List.find?_singleton]
      cases hc : isHearingCell c <;> simp [dateStep_hearing, hc]

/-- Counterexample to claim C5 as stated: with two cells both qualifying for
`filing_date` — `"Date of Filing 01/01/2020"` then `"Filed on 02/02/2021"` —
the parser keeps the second (last) match, not the first, because each match
overwrites the field (lines 306-307 assign unconditionally). -/
theorem date_scan_first_match_refuted :
    (parse_doc
        { partiesSection := none
        , tdRows := [[{ text := "Date of Filing 01/01/2020", anchors := [] }],
                     [{ text := "Filed on 02/02/2021", anchors := [] }]]
        , ordersTable := none } "WP(C)" "1" "2020").filing_date = "Filed on 02/02/2021"
    ∧ (parse_doc
        { partiesSection := none
        , tdRows := [[{ text := "Date of Filing 01/01/2020", anchors := [] }],
                     [{ text := "Filed on 02/02/2021", anchors := [] }]]
        , ordersTable := none } "WP(C)" "1" "2020").filing_date ≠
          "Date of Filing 01/01/2020" := by
  constructor
  · rfl
  · decide

/-- Claim C5 (amended): the date loop scans every table cell in document order;
a cell with a `dd/mm/yyyy` token sets `filing_date` when its text mentions
filing/filed, otherwise `next_hearing_date` when it mentions hearing/next; and
when several cells qualify for the same field the last matching cell wins,
each later match overwriting the earlier value. -/
theorem date_scan_last_match (doc : HtmlDoc) (case_type case_number filing_year : String) :
    (parse_doc doc case_type case_number filing_year).filing_date =
      ((doc.tdRows.flatten.reverse.find? isFilingCell).map (fun c => pyStrip c.text)).getD
        "N/A"
    ∧ (parse_doc doc case_type case_number filing_year).next_hearing_date =
      ((doc.tdRows.flatten.reverse.find? isHearingCell).map (fun c => pyStrip c.text)).getD
        "N/A" := by
  unfold parse_doc
  obtain ⟨p, hp⟩ := partiesStep_eq doc (case_data_init case_type case_number filing_year)
  rw [hp]
  obtain ⟨o, ho⟩ := ordersStep_eq doc
    (statusStep doc ((doc.tdRows.flatten).foldl dateStep
      { case_data_init case_type case_number filing_year with parties := p }))
  rw [ho]
  obtain ⟨s, hs⟩ := statusStep_eq doc ((doc.tdRows.flatten).foldl dateStep
    { case_data_init case_type case_number filing_year with parties := p })
  rw [hs]
  exact ⟨foldl_dateStep_filing _ _, foldl_dateStep_hearing _ _⟩

/-! ### Orders extraction (claim C6) and pdf links (claim C7) -/

/-- With an orders table present, the orders stage appends the loop result. -/
theorem ordersStep_some (doc : HtmlDoc) (cd : CaseData) (rows : List (List Cell))
    (h : doc.ordersTable = some rows) :
    ordersStep doc cd = { cd with orders := (rows.drop 1).foldl orderRowStep cd.orders } := by
  unfold ordersStep
  rw [h]

/-- The imperative append loop over order rows equals a `filterMap`. -/
theorem foldl_orderRowStep (l : List (List Cell)) (acc : List Order) :
    l.foldl orderRowStep acc = acc ++ l.filterMap orderRow? := by
  induction l generalizing acc with
  | nil => simp
  | cons r t ih =>
    rw [List.foldl_cons]
    rcases r with _ | ⟨c0, _ | ⟨c1, _ | ⟨c2, rest⟩⟩⟩ <;>
      simp [orderRowStep, orderRow?, ih, List.append_assoc]

/-- Claim C6: the parser skips the first (header) row of the orders table; each
remaining row with at least 3 cells emits exactly one `Order` built from the
texts of cells 0, 1 and 2, in row order, and rows with fewer than 3 cells emit
nothing (the `filterMap` characterisation states all of this, since
`orderRow?` is `some` exactly on rows with ≥ 3 cells); a crafted orders table
with a header, two rows of ≥ 3 cells and one short row yields exactly the two
orders in row order. -/
theorem orders_table_extraction :
    (∀ (ps : Option (List (List Cell))) (tds rows : List (List Cell))
        (case_type case_number filing_year : String),
        (parse_doc { partiesSection := ps, tdRows := tds, ordersTable := some rows }
            case_type case_number filing_year).orders =
          (rows.drop 1).filterMap orderRow?)
    ∧ (parse_doc
        { partiesSection := none
        , tdRows := []
        , ordersTable := some
            [ [{ text := "Date", anchors := [] }, { text := "Type", anchors := [] },
               { text := "Details", anchors := [] }]
            , [{ text := "20/11/2024", anchors := [] }, { text := "Order", anchors := [] },
               { text := "Adjourned", anchors := [] }]
            , [{ text := "irrelevant", anchors := [] }, { text := "short row", anchors := [] }]
            , [{ text := "15/10/2024", anchors := [] }, { text := "Notice", anchors := [] },
               { text := "Notice issued", anchors := ["/orders/n.pdf"] },
               { text := "extra", anchors := [] }] ] }
        "WP(C)" "1" "2024").orders =
      [ { date := "20/11/2024", order_type := "Order", description := "Adjourned"
        , pdf_link := none }
      , { date := "15/10/2024", order_type := "Notice", description := "Notice issued"
        , pdf_link := some "https://delhihighcourt.nic.in/orders/n.pdf" } ] := by
  constructor
  · intro ps tds rows ct cn fy
    unfold parse_doc
    obtain ⟨p, hp⟩ := partiesStep_eq { partiesSection := ps, tdRows := tds, ordersTable := some rows }
      (case_data_init ct cn fy)
    rw [hp]
    obtain ⟨f, h, hfold⟩ := foldl_dateStep_eq
      (HtmlDoc.tdRows { partiesSection := ps, tdRows := tds, ordersTable := some rows }).flatten
      { case_data_init ct cn fy with parties := p }
    rw [hfold]
    obtain ⟨s, hs⟩ := statusStep_eq { partiesSection := ps, tdRows := tds, ordersTable := some rows }
      { case_data_init ct cn fy with parties := p, filing_date := f, next_hearing_date := h }
    rw [hs, ordersStep_some _ _ rows rfl]
    dsimp only
    rw [foldl_orderRowStep]
    rfl
  · rfl

/-- Counterexample to claim C7 as stated: in a cell whose first anchor
(`/case/details/view`) does not mention pdf/download and whose second anchor
(`/orders/file.pdf`) does, `_extract_pdf_link` returns `None` — it inspects
only the first anchor (`element.find('a', href=True)`, line 345) and never
reaches the qualifying one — whereas the claim predicts the qualifying
anchor's resolved URL. -/
theorem pdf_link_first_qualifying_refuted :
    extract_pdf_link { text := "View order", anchors := ["/case/details/view", "/orders/file.pdf"] } =
      none
    ∧ (containsSub (pyLower "/orders/file.pdf") "pdf" = true)
    ∧ urljoin base_url "/orders/file.pdf" = "https://delhihighcourt.nic.in/orders/file.pdf"
    ∧ extract_pdf_link { text := "View order", anchors := ["/case/details/view", "/orders/file.pdf"] } ≠
        some (urljoin base_url "/orders/file.pdf") := by
  refine ⟨rfl, by decide, by decide, by decide⟩

/-- Claim C7 (amended): `pdf_link` is determined solely by the first anchor
carrying an `href` inside the description cell: when that anchor's target
contains pdf or download (case-insensitively) its URL resolved against the
site's base origin is returned; otherwise — including when only a later anchor
would qualify — `pdf_link` is absent, as it is when the cell has no anchor. -/
theorem pdf_link_first_anchor_only :
    (∀ c : Cell, c.anchors = [] → extract_pdf_link c = none)
    ∧ (∀ (c : Cell) (href : String) (rest : List String), c.anchors = href :: rest →
        ((containsSub (pyLower href) "pdf" || containsSub (pyLower href) "download") = true →
            extract_pdf_link c = some (urljoin base_url href))
        ∧ ((containsSub (pyLower href) "pdf" || containsSub (pyLower href) "download") = false →
            extract_pdf_link c = none)) := by
  constructor
  · intro c hc
    unfold extract_pdf_link
    rw [hc]
    rfl
  · intro c href rest hc
    constructor
    · intro hq
      unfold extract_pdf_link
      rw [hc]
      simp [hq]
    · intro hq
      unfold extract_pdf_link
      rw [hc]
      simp [hq]

/-- Witness for C7 (amended) at concrete cells: a first anchor mentioning pdf
is resolved and returned; a first anchor mentioning neither pdf nor download
gives `None`; an anchor-free cell gives `None`. -/
theorem pdf_link_first_anchor_only_witness :
    extract_pdf_link { text := "d", anchors := ["/orders/a.pdf", "/x"] } =
      some (urljoin base_url "/orders/a.pdf")
    ∧ extract_pdf_link { text := "d", anchors := ["/case/view"] } = none
    ∧ extract_pdf_link { text := "d", anchors := [] } = none :=
  ⟨(pdf_link_first_anchor_only.2 { text := "d", anchors := ["/orders/a.pdf", "/x"] }
      "/orders/a.pdf" ["/x"] rfl).1 (by decide),
   (pdf_link_first_anchor_only.2 { text := "d", anchors := ["/case/view"] }
      "/case/view" [] rfl).2 (by decide),
   pdf_link_first_anchor_only.1 { text := "d", anchors := [] } rfl⟩

/-! ### Challenge detection (`_captcha_detected`, claim C8) -/

/-- The loaded page as the driver exposes it to `_captcha_detected`:
`matchedSelectors` are the CSS selectors for which `driver.find_elements`
returns a non-empty list, and `pageSource` is `driver.page_source`. -/
structure Page where
  matchedSelectors : List String
  pageSource : String
deriving DecidableEq

/-- `captcha_selectors` (lines 189-196). -/
def captcha_selectors : List String :=
  ["img[src*=\x27captcha\x27]", "img[alt*=\x27captcha\x27]", "#captcha", ".captcha",
   "input[name*=\x27captcha\x27]", "canvas"]

/-- `captcha_keywords` (line 206). -/
def captcha_keywords : List String :=
  ["captcha", "verification", "robot", "human"]

/-- `DelhiHighCourtRealScraper._captcha_detected` (lines 185-217): the page is
declared blocked when some CAPTCHA selector matches elements, or failing that
when some keyword occurs in the lower-cased page source; an exception while
inspecting (the `Except.error` case) is treated as CAPTCHA present
(lines 215-217). -/
def captcha_detected (page : Except Unit Page) : Bool :=
  match page with
  | .error _ => true
  | .ok p =>
    if captcha_selectors.any (fun sel => p.matchedSelectors.contains sel) then true
    else captcha_keywords.any (fun kw => containsSub (pyLower p.pageSource) kw)

/-- Claim C8: detection reports BLOCKED exactly when some CAPTCHA selector
matches the page or some keyword (captcha, verification, robot, human) occurs
in the page markup; a failure of the inspection itself also reports BLOCKED;
and when inspection succeeds with no indicator matching, the page is reported
not blocked. -/
theorem captcha_detected_characterisation :
    (∀ p : Page, captcha_detected (Except.ok p) = true ↔
        (∃ sel ∈ captcha_selectors, p.matchedSelectors.contains sel = true)
        ∨ (∃ kw ∈ captcha_keywords, containsSub (pyLower p.pageSource) kw = true))
    ∧ captcha_detected (Except.error ()) = true
    ∧ (∀ p : Page,
        (∀ sel ∈ captcha_selectors, p.matchedSelectors.contains sel = false) →
        (∀ kw ∈ captcha_keywords, containsSub (pyLower p.pageSource) kw = false) →
        captcha_detected (Except.ok p) = false) := by
  have hok : ∀ p : Page, captcha_detected (Except.ok p) =
      ((captcha_selectors.any fun sel => p.matchedSelectors.contains sel) ||
        (captcha_keywords.any fun kw => containsSub (pyLower p.pageSource) kw)) := by
    intro p
    show (if (captcha_selectors.any fun sel => p.matchedSelectors.contains sel) = true
          then true
          else captcha_keywords.any fun kw => containsSub (pyLower p.pageSource) kw) = _
    split
    · next h => rw [h]; rfl
    · next h => rw [Bool.not_eq_true] at h; rw [h]; rfl
  refine ⟨fun p => ?_, rfl, fun p hsel hkw => ?_⟩
  · rw [hok p, Bool.or_eq_true, List.any_eq_true, List.any_eq_true]
  · rw [hok p, List.any_eq_false.mpr (fun sel hmem => by rw [hsel sel hmem]; simp),
      List.any_eq_false.mpr (fun kw hmem => by rw [hkw kw hmem]; simp)]
    rfl

/-- Witness for C8 at concrete pages: a page whose source mentions a robot is
blocked, and a clean page with no matching selector and no keyword is not. -/
theorem captcha_detected_characterisation_witness :
    captcha_detected (Except.ok { matchedSelectors := [], pageSource := "I am a robot" }) = true
    ∧ captcha_detected (Except.error ()) = true
    ∧ captcha_detected (Except.ok { matchedSelectors := [], pageSource := "case list" }) = false :=
  ⟨(captcha_detected_characterisation.1
      { matchedSelectors := [], pageSource := "I am a robot" }).2
        (Or.inr ⟨"robot", by decide, by decide⟩),
   captcha_detected_characterisation.2.1,
   captcha_detected_characterisation.2.2 { matchedSelectors := [], pageSource := "case list" }
     (by decide) (by decide)⟩

/-! ### The `/search` route, validation and query logging (claims C2, C9, C10) -/

/-- The JSON body of a `POST /search` request; a `none` field is one absent
from the JSON object, read through `data.get(field, '')` (lines 445-447). -/
structure SearchRequest where
  case_type : Option String
  case_number : Option String
  filing_year : Option String
deriving DecidableEq

/-- The HTTP response of the route: a `jsonify({'success': False, 'error': msg})`
with an explicit status code, or a 200 `jsonify(result)`. -/
inductive RouteResponse where
  | clientError (status : Nat) (error : String)
  | ok (result : SearchResult)
deriving DecidableEq

/-- A row of the `queries` table as inserted by `log_query` (lines 596-608). -/
structure CaseQuery where
  case_type : String
  case_number : String
  filing_year : String
  raw_response : String
  status : String
  parsed_data : Option CaseData
  is_blocked : Bool
deriving DecidableEq

/-- `log_query` (lines 589-616).  `insert` is the outcome of the SQLite
insert: on success the row is committed, on an exception the handler at
lines 612-613 logs the error and swallows it, leaving the store unchanged —
the function returns normally to its caller either way. -/
def log_query (insert : Except Unit Unit) (store : List CaseQuery) (q : CaseQuery) :
    List CaseQuery :=
  match insert with
  | .ok _ => store ++ [q]
  | .error _ => store

/-- The row `search_case` (the route, lines 469-477) hands to `log_query`,
built from the stripped fields and the scraper result. -/
def query_row (case_type case_number filing_year : String) (result : SearchResult) :
    CaseQuery :=
  { case_type := case_type
  , case_number := case_number
  , filing_year := filing_year
  , raw_response := result.raw_html.getD ""
  , status := if result.success then "success" else "error"
  , parsed_data := result.data
  , is_blocked := result.blocked }

/-- The body of the `/search` route after stripping (lines 452-479): reject
with 400 when a field is empty, reject with 400 when the year is not four
digits, otherwise search, log the query and return the result.  Returns the
response together with the updated query store. -/
def search_route_core (insert : Except Unit Unit)
    (case_type case_number filing_year : String) (store : List CaseQuery) :
    RouteResponse × List CaseQuery :=
  if case_type = "" ∨ case_number = "" ∨ filing_year = "" then
    (.clientError 400 "All fields are required", store)
  else if re_match_4digits filing_year = false then
    (.clientError 400 "Filing year must be a 4-digit year", store)
  else
    (.ok (search_case case_type case_number filing_year),
     log_query insert store
       (query_row case_type case_number filing_year
         (search_case case_type case_number filing_year)))

/-- The `/search` route handler `search_case` (lines 437-479): each field is
read with default `''` and stripped (lines 445-447) before validation and
use. -/
def search_route (insert : Except Unit Unit) (req : SearchRequest)
    (store : List CaseQuery) : RouteResponse × List CaseQuery :=
  search_route_core insert (pyStrip (req.case_type.getD ""))
    (pyStrip (req.case_number.getD "")) (pyStrip (req.filing_year.getD "")) store

/-- Empty-field branch of the core. -/
theorem search_route_core_empty (insert : Except Unit Unit)
    (case_type case_number filing_year : String) (store : List CaseQuery)
    (h : case_type = "" ∨ case_number = "" ∨ filing_year = "") :
    search_route_core insert case_type case_number filing_year store =
      (.clientError 400 "All fields are required", store) := by
  unfold search_route_core
  rw [if_pos h]

/-- Bad-year branch of the core. -/
theorem search_route_core_bad_year (insert : Except Unit Unit)
    (case_type case_number filing_year : String) (store : List CaseQuery)
    (h1 : ¬(case_type = "" ∨ case_number = "" ∨ filing_year = ""))
    (h2 : re_match_4digits filing_year = false) :
    search_route_core insert case_type case_number filing_year store =
      (.clientError 400 "Filing year must be a 4-digit year", store) := by
  unfold search_route_core
  rw [if_neg h1, if_pos h2]

/-- Success branch of the core. -/
theorem search_route_core_ok (insert : Except Unit Unit)
    (case_type case_number filing_year : String) (store : List CaseQuery)
    (h1 : ¬(case_type = "" ∨ case_number = "" ∨ filing_year = ""))
    (h2 : re_match_4digits filing_year = true) :
    search_route_core insert case_type case_number filing_year store =
      (.ok (search_case case_type case_number filing_year),
       log_query insert store
         (query_row case_type case_number filing_year
           (search_case case_type case_number filing_year))) := by
  unfold search_route_core
  rw [if_neg h1, if_neg (by rw [h2]; simp)]

/-- A string matching `^\d{4}$` is non-empty. -/
theorem re_match_4digits_ne_empty (s : String) (h : re_match_4digits s = true) : s ≠ "" := by
  intro he
  subst he
  exact absurd h (by decide)

/-- Claim C2: the `/search` validator rejects with a 400 response carrying
`"All fields are required"` whenever a (stripped) field is empty or missing;
it rejects with a 400 response whose message mentions `"4-digit year"`
whenever the (stripped) `filing_year` does not match `^\d{4}$`; and an input
passing both checks is never rejected — the route answers 200 with the search
result. -/
theorem search_route_validation (insert : Except Unit Unit) (req : SearchRequest)
    (store : List CaseQuery) :
    ((pyStrip (req.case_type.getD "") = "" ∨ pyStrip (req.case_number.getD "") = ""
        ∨ pyStrip (req.filing_year.getD "") = "") →
      (search_route insert req store).1 =
        RouteResponse.clientError 400 "All fields are required")
    ∧ (¬(pyStrip (req.case_type.getD "") = "" ∨ pyStrip (req.case_number.getD "") = ""
        ∨ pyStrip (req.filing_year.getD "") = "") →
      re_match_4digits (pyStrip (req.filing_year.getD "")) = false →
      (search_route insert req store).1 =
          RouteResponse.clientError 400 "Filing year must be a 4-digit year"
        ∧ containsSub "Filing year must be a 4-digit year" "4-digit year" = true)
    ∧ (pyStrip (req.case_type.getD "") ≠ "" → pyStrip (req.case_number.getD "") ≠ "" →
      re_match_4digits (pyStrip (req.filing_year.getD "")) = true →
      (search_route insert req store).1 =
        RouteResponse.ok (search_case (pyStrip (req.case_type.getD ""))
          (pyStrip (req.case_number.getD "")) (pyStrip (req.filing_year.getD "")))) := by
  refine ⟨fun h => ?_, fun h1 h2 => ⟨?_, by decide⟩, fun h1 h2 h3 => ?_⟩
  · unfold search_route
    rw [search_route_core_empty _ _ _ _ _ h]
  · unfold search_route
    rw [search_route_core_bad_year _ _ _ _ _ h1 h2]
  · unfold search_route
    rw [search_route_core_ok _ _ _ _ _
      (by rintro (h | h | h)
          · exact h1 h
          · exact h2 h
          · exact re_match_4digits_ne_empty _ h3 h)
      h3]

/-- Witness for C2 at concrete requests: a missing `case_number` is rejected,
a two-digit year is rejected with the 4-digit message, and a fully valid
request is answered with the search result. -/
theorem search_route_validation_witness :
    (search_route (Except.ok ())
        { case_type := some "WP(C)", case_number := none, filing_year := some "2024" } []).1 =
      RouteResponse.clientError 400 "All fields are required"
    ∧ ((search_route (Except.ok ())
        { case_type := some "WP(C)", case_number := some "1234", filing_year := some "24" } []).1 =
          RouteResponse.clientError 400 "Filing year must be a 4-digit year"
        ∧ containsSub "Filing year must be a 4-digit year" "4-digit year" = true)
    ∧ (search_route (Except.ok ())
        { case_type := some "WP(C)", case_number := some "1234", filing_year := some "2024" } []).1 =
      RouteResponse.ok (search_case (pyStrip "WP(C)") (pyStrip "1234") (pyStrip "2024")) :=
  ⟨(search_route_validation (Except.ok ())
      { case_type := some "WP(C)", case_number := none, filing_year := some "2024" } []).1
      (by decide),
   (search_route_validation (Except.ok ())
      { case_type := some "WP(C)", case_number := some "1234", filing_year := some "24" } []).2.1
      (by decide) (by decide),
   (search_route_validation (Except.ok ())
      { case_type := some "WP(C)", case_number := some "1234", filing_year := some "2024" } []).2.2
      (by decide) (by decide) (by decide)⟩

/-- Claim C9: a failing insert is swallowed inside `log_query`, which leaves
the store unchanged and returns normally, and the user-facing response of
`POST /search` is identical whatever the outcome of the logging insert — a
store failure never turns a successful lookup into an error response. -/
theorem log_failure_invisible :
    (∀ (store : List CaseQuery) (q : CaseQuery),
        log_query (Except.error ()) store q = store)
    ∧ (∀ (insert1 insert2 : Except Unit Unit) (req : SearchRequest)
        (store : List CaseQuery),
        (search_route insert1 req store).1 = (search_route insert2 req store).1) := by
  refine ⟨fun store q => rfl, fun i1 i2 req store => ?_⟩
  unfold search_route search_route_core
  split_ifs <;> rfl

/-- Claim C10: `/search` strips surrounding whitespace from each field before
validation and use — a whitespace-only field is rejected as empty with 400,
while a `filing_year` of `"2024 "` passes the 4-digit check and the lookup
runs on the stripped values. -/
theorem search_route_strips_input (insert : Except Unit Unit) (store : List CaseQuery) :
    ((search_route insert
        { case_type := some "   ", case_number := some "1234", filing_year := some "2024" }
        store).1 = RouteResponse.clientError 400 "All fields are required")
    ∧ (∀ case_type case_number : String,
        pyStrip case_type ≠ "" → pyStrip case_number ≠ "" →
        (search_route insert
            { case_type := some case_type, case_number := some case_number
            , filing_year := some "2024 " } store).1 =
          RouteResponse.ok (search_case (pyStrip case_type) (pyStrip case_number) "2024")) := by
  constructor
  · unfold search_route
    rw [search_route_core_empty _ _ _ _ _ (Or.inl (by decide))]
  · intro ct cn h1 h2
    unfold search_route
    have hy : pyStrip ((some "2024 ").getD "") = "2024" := by decide
    rw [hy, search_route_core_ok _ _ _ _ _
      (by rintro (h | h | h)
          · exact h1 h
          · exact h2 h
          · exact absurd h (by decide))
      (by decide)]
    rfl

/-- Witness for C10 at fields with surrounding whitespace. -/
theorem search_route_strips_input_witness :
    ((search_route (Except.ok ())
        { case_type := some "   ", case_number := some "1234", filing_year := some "2024" }
        []).1 = RouteResponse.clientError 400 "All fields are required")
    ∧ (search_route (Except.ok ())
        { case_type := some " WP(C) ", case_number := some " 9 ", filing_year := some "2024 " }
        []).1 =
      RouteResponse.ok (search_case (pyStrip " WP(C) ") (pyStrip " 9 ") "2024") :=
  ⟨(search_route_strips_input (Except.ok ()) []).1,
   (search_route_strips_input (Except.ok ()) []).2 " WP(C) " " 9 " (by decide) (by decide)⟩

end CourtApp
